import Mathlib

/-!
Shallow embedding of `src/dashboard.py` (AI-Powered Governance Dashboard).

The script is a single linear Streamlit page:
environment setup, a two-tier data load (BigQuery, then a local CSV,
then `st.stop()`), five display blocks over a pandas DataFrame, and an
on-demand Gemini summary call wrapped in a catch-all.

We model a pandas DataFrame as a list of column names together with a
rectangular list of rows of cells; a cell is a string, an integer, or a
missing value (NaN).  External effects (Streamlit rendering, the
BigQuery query, the CSV read, the Gemini call) are modelled as events in
a trace; the outcomes of the external calls are supplied by an
environment record.
-/

namespace Dashboard

/-- A cell of the tabular record set: a string, a number, or a missing
value (pandas NaN).  Python's `str()` renders a missing value as
`"nan"`. -/
inductive Cell where
  | str (s : String)
  | num (n : Int)
  | missing
deriving DecidableEq, Repr

/-- Python `str()` applied to a cell, as `astype(str)` does elementwise:
strings are unchanged, numbers print in decimal, NaN prints as `"nan"`. -/
def cellStr : Cell → String
  | .str s => s
  | .num n => toString n
  | .missing => "nan"

/-- Python `str.strip()`: drop whitespace from both ends. -/
def pyStrip (s : String) : String :=
  ⟨((s.data.dropWhile Char.isWhitespace).reverse.dropWhile Char.isWhitespace).reverse⟩

/-- Python `str.lower()`: lowercase every character. -/
def pyLower (s : String) : String :=
  ⟨s.data.map Char.toLower⟩

/-- `pat` begins the character list. -/
def charsBeginWith : List Char → List Char → Bool
  | [], _ => true
  | _ :: _, [] => false
  | p :: ps, c :: cs => p == c && charsBeginWith ps cs

/-- `pat` occurs contiguously somewhere in the character list:
Python `pat in s` / pandas `str.contains` on a literal pattern. -/
def charsContain (pat : List Char) : List Char → Bool
  | [] => charsBeginWith pat []
  | c :: cs => charsBeginWith pat (c :: cs) || charsContain pat cs

/-- Substring test on strings. -/
def strContains (s pat : String) : Bool :=
  charsContain pat.data s.data

/-- A pandas DataFrame: column labels and rows of cells.  A well-formed
frame (as every frame produced by pandas is) is rectangular: each row
has one cell per column. -/
structure DataFrame where
  cols : List String
  rows : List (List Cell)
deriving DecidableEq, Repr

/-- Rectangularity invariant of pandas frames. -/
def Wf (df : DataFrame) : Prop :=
  ∀ r ∈ df.rows, r.length = df.cols.length

/-- Index of a column label, first match (pandas label lookup). -/
def colIdx : List String → String → Option Nat
  | [], _ => none
  | c :: cs, name => if c == name then some 0 else (colIdx cs name).map (· + 1)

/-- Python `name in data.columns`. -/
def hasCol (df : DataFrame) (c : String) : Bool :=
  (colIdx df.cols c).isSome

/-- The cell of row `r` in column `c` of frame `df` (missing when the
column is absent or the row is short). -/
def rowCellD (df : DataFrame) (c : String) (r : List Cell) : Cell :=
  match colIdx df.cols c with
  | some i => r.getD i Cell.missing
  | none => Cell.missing

/-- Replace the cell at index `i` of a row by `f` of its old value. -/
def setColRow (i : Nat) (f : Cell → Cell) (r : List Cell) : List Cell :=
  r.set i (f (r.getD i Cell.missing))

/-- Column assignment `data[c] = data[c].map f`: rewrite column `c`
elementwise, leaving the frame unchanged when `c` is absent. -/
def setCol (df : DataFrame) (c : String) (f : Cell → Cell) : DataFrame :=
  match colIdx df.cols c with
  | some i => { df with rows := df.rows.map (setColRow i f) }
  | none => df

/-- The cells of column `c` (missing-padded), `none` when absent. -/
def getCol (df : DataFrame) (c : String) : Option (List Cell) :=
  (colIdx df.cols c).map fun i => df.rows.map (fun r => r.getD i Cell.missing)

/-- The cells of column `c`, empty when the column is absent. -/
def getColD (df : DataFrame) (c : String) : List Cell :=
  (getCol df c).getD []

/-- Boolean-mask row selection `data[mask]`. -/
def filterRows (df : DataFrame) (p : List Cell → Bool) : DataFrame :=
  { df with rows := df.rows.filter p }

/-- `data.head n`: the first `n` rows. -/
def headRows (n : Nat) (df : DataFrame) : DataFrame :=
  { df with rows := df.rows.take n }

/-- Whether a cell carries a value (pandas drops NaN in `value_counts`). -/
def cellNotMissing : Cell → Bool
  | .missing => false
  | _ => true

/-- The distinct cells of a list in first-appearance order, skipping
those already seen. -/
def distinctCells : List Cell → List Cell → List Cell
  | _, [] => []
  | seen, c :: cs =>
      if seen.contains c then distinctCells seen cs
      else c :: distinctCells (c :: seen) cs

/-- Insert into a count-descending list, after earlier entries of equal
count. -/
def insertDesc (x : Cell × Nat) : List (Cell × Nat) → List (Cell × Nat)
  | [] => [x]
  | y :: ys => if y.2 < x.2 then x :: y :: ys else y :: insertDesc x ys

/-- Stable insertion sort by count, descending. -/
def insertSortDesc : List (Cell × Nat) → List (Cell × Nat)
  | [] => []
  | x :: xs => insertDesc x (insertSortDesc xs)

/-- pandas `Series.value_counts()`: drop missing values, count each
distinct value, order by count descending. -/
def valueCounts (l : List Cell) : List (Cell × Nat) :=
  let seen := l.filter cellNotMissing
  insertSortDesc ((distinctCells [] seen).map (fun c => (c, seen.count c)))

/-- `Series.isin(vals)` for a cell against string literals. -/
def cellIsin (c : Cell) (vals : List String) : Bool :=
  vals.any (fun s => c == Cell.str s)

/-! ## The script's external interface -/

/-- A Streamlit rendering event, one per `st.*` call of the script. -/
inductive UIEvent where
  | title (t : String)
  | header (t : String)
  | subheader (t : String)
  | writeText (t : String)
  | info (msg : String)
  | success (msg : String)
  | warning (msg : String)
  | error (msg : String)
  | showDataframe (df : DataFrame)
  | pieChart (counts : List (Cell × Nat))
  | barChart (counts : List (Cell × Nat))
  | markdown (t : String)
  | showTable (counts : List (Cell × Nat))
deriving DecidableEq, Repr

/-- An outgoing call to an external service. -/
inductive ExtCall where
  | bigqueryQuery (sql : String)
  | csvRead (path : String)
  | genaiGenerate (modelName : String) (prompt : String)
deriving DecidableEq, Repr

/-- The outcomes the outside world supplies to one run of the script. -/
structure Env where
  /-- `.ok t`: the BigQuery table the fixed query reads; `.error e`: the
  client or query raises an exception rendering as `e`. -/
  table : Except String DataFrame
  /-- `some d`: `predicted_priorities.csv` parses to `d`; `none`: the
  read raises `FileNotFoundError`. -/
  csvFile : Option DataFrame
  /-- `.ok txt`: the Gemini call returns text `txt`; `.error e`: it
  raises an exception rendering as `e`. -/
  genaiResp : Except String String
  /-- Whether the "Generate AI Summary" button was clicked this run. -/
  buttonClicked : Bool
  /-- Whether `GOOGLE_API_KEY` is set. -/
  genaiKeyPresent : Bool
  /-- Whether `GOOGLE_APPLICATION_CREDENTIALS` names an existing file. -/
  credsOk : Bool

/-! ## The script, top to bottom -/

def PROJECT_ID : String := "second-sandbox-477217-h7"

def DATASET_ID : String := "governance_data"

def TABLE_ID : String := "predicted_priorities"

/-- The fixed SQL statement sent to BigQuery. -/
def query : String :=
  "SELECT * FROM `" ++ PROJECT_ID ++ "." ++ DATASET_ID ++ "." ++ TABLE_ID ++ "` LIMIT 1000"

/-- Path of the local fallback file. -/
def csvPath : String := "predicted_priorities.csv"

/-- BigQuery evaluating the fixed `SELECT * ... LIMIT 1000` statement on
the stored table: all columns, at most the first 1000 rows. -/
def runQuery (t : DataFrame) : DataFrame :=
  headRows 1000 t

def missingKeyMsg : String :=
  "❌ Missing Gemini API key. Please set GOOGLE_API_KEY in .env file."

def credsWarnMsg : String :=
  "⚠️ Google credentials file not found. Will try local CSV instead."

/-- ENV SETUP and PAGE HEADER sections (lines 14-32): credential
warnings, page title, subtitle. -/
def setupEvents (env : Env) : List UIEvent :=
  (if env.genaiKeyPresent then [] else [.error missingKeyMsg]) ++
  (if env.credsOk then [] else [.warning credsWarnMsg]) ++
  [.title "🏛️ AI-Powered Governance Dashboard",
   .writeText "Transforming Citizen Service Delivery with Predictive Insights"]

def fetchInfoMsg : String :=
  "🔄 Fetching data from BigQuery table `" ++ PROJECT_ID ++ "." ++ DATASET_ID
    ++ "." ++ TABLE_ID ++ "` ..."

def bqSuccessMsg : String := "✅ Data loaded from BigQuery successfully!"

def bqWarnMsg (e : String) : String :=
  "⚠️ BigQuery not configured — using local CSV file. Error: " ++ e

def csvSuccessMsg : String := "✅ Local CSV file loaded successfully."

def noDataMsg : String :=
  "❌ No BigQuery connection and no local CSV found. Please check configuration."

/-- LOAD DATA section (lines 40-53): try the BigQuery query; on any
exception fall back to reading the local CSV; on `FileNotFoundError`
there, show an error and `st.stop()` (result `none`).  Returns the
external calls made, the events shown, and the loaded frame if any. -/
def loadData (env : Env) : List ExtCall × List UIEvent × Option DataFrame :=
  match env.table with
  | .ok t =>
      ([.bigqueryQuery query],
       [.info fetchInfoMsg, .success bqSuccessMsg],
       some (runQuery t))
  | .error e =>
      match env.csvFile with
      | some d =>
          ([.bigqueryQuery query, .csvRead csvPath],
           [.info fetchInfoMsg, .warning (bqWarnMsg e), .success csvSuccessMsg],
           some d)
      | none =>
          ([.bigqueryQuery query, .csvRead csvPath],
           [.info fetchInfoMsg, .warning (bqWarnMsg e), .error noDataMsg],
           none)

/-- Block 1 (lines 58-59): header and full-data table. -/
def summaryBlock (df : DataFrame) : List UIEvent × DataFrame :=
  ([.header "📋 Service Request Summary", .showDataframe df], df)

def priorityAbsentMsg : String := "Column 'priority_score' not found in data."

/-- Block 2 (lines 62-80): pie chart of `priority_score` value counts
when the column is present, info placeholder otherwise. -/
def priorityBlock (df : DataFrame) : List UIEvent × DataFrame :=
  (UIEvent.subheader "🔍 Priority Breakdown" ::
    (if hasCol df "priority_score" then
      [.pieChart (valueCounts (getColD df "priority_score"))]
    else
      [.info priorityAbsentMsg]), df)

/-- `astype(str).str.strip().str.lower()` on one cell (line 86). -/
def normalizeCell (c : Cell) : Cell :=
  .str (pyLower (pyStrip (cellStr c)))

/-- Line 86: `data["resolved"] = data["resolved"].astype(str).str.strip().str.lower()`. -/
def normalizedFrame (df : DataFrame) : DataFrame :=
  setCol df "resolved" normalizeCell

/-- Lines 87-88: the rows whose (normalized) `resolved` value is in
`["no", "false", "0"]`. -/
def unresolvedFrame (df : DataFrame) : DataFrame :=
  let df1 := normalizedFrame df
  filterRows df1 (fun r => cellIsin (rowCellD df1 "resolved" r) ["no", "false", "0"])

def deptAbsentMsg : String := "⚠️ Columns 'resolved' or 'department' not found in data."

def noUnresolvedMsg : String := "✅ No unresolved issues found."

/-- Block 3 (lines 84-94): when `resolved` and `department` are present,
normalize `resolved` in place, bar-chart the department counts of the
unresolved rows (or an info message when that count series is empty);
otherwise an info placeholder. -/
def departmentBlock (df : DataFrame) : List UIEvent × DataFrame :=
  if hasCol df "resolved" && hasCol df "department" then
    let unresolved := valueCounts (getColD (unresolvedFrame df) "department")
    (UIEvent.subheader "🏢 Department-wise Pending Issues" ::
      (if unresolved.isEmpty then [.info noUnresolvedMsg] else [.barChart unresolved]),
     normalizedFrame df)
  else
    ([.subheader "🏢 Department-wise Pending Issues", .info deptAbsentMsg], df)

/-- `astype(str)` on one cell (line 99). -/
def strCast (c : Cell) : Cell :=
  .str (cellStr c)

/-- Line 99: `data["priority_score"] = data["priority_score"].astype(str)`. -/
def castFrame (df : DataFrame) : DataFrame :=
  setCol df "priority_score" strCast

/-- Line 100: the rows whose stringified `priority_score`, lowercased,
contains the substring `"high"`. -/
def highFrame (df : DataFrame) : DataFrame :=
  let df1 := castFrame df
  filterRows df1 (fun r => strContains (pyLower (cellStr (rowCellD df1 "priority_score" r))) "high")

def highCountMsg (n : Nat) : String :=
  "🚨 **Total High Priority Cases:** " ++ toString n

/-- Block 4 (lines 97-104): when `priority_score` is present, cast it to
strings in place, report the high-priority row count, and (when
`department` exists) table the top five departments among them.  No
placeholder when the column is absent. -/
def insightsBlock (df : DataFrame) : List UIEvent × DataFrame :=
  if hasCol df "priority_score" then
    (UIEvent.subheader "💡 Key Insights" ::
      UIEvent.markdown (highCountMsg (highFrame df).rows.length) ::
      (if hasCol df "department" then
        [.markdown "**Departments with Most High Priority Issues:**",
         .showTable ((valueCounts (getColD (highFrame df) "department")).take 5)]
      else []),
     castFrame df)
  else
    ([.subheader "💡 Key Insights"], df)

/-- Block 5 (lines 107-110): when `severity` is present, a subheader and
bar chart; nothing at all otherwise. -/
def severityBlock (df : DataFrame) : List UIEvent × DataFrame :=
  if hasCol df "severity" then
    ([.subheader "🔥 Severity Level Breakdown",
      .barChart (valueCounts (getColD df "severity"))], df)
  else
    ([], df)

/-- Blocks 1-5 in script order, threading the shared frame. -/
def runBlocks (df : DataFrame) : List UIEvent × DataFrame :=
  let b1 := summaryBlock df
  let b2 := priorityBlock b1.2
  let b3 := departmentBlock b2.2
  let b4 := insightsBlock b3.2
  let b5 := severityBlock b4.2
  (b1.1 ++ b2.1 ++ b3.1 ++ b4.1 ++ b5.1, b5.2)

/-- The fixed prompt text preceding the data sample (line 118). -/
def promptTemplate : String :=
  "Summarize key trends and citizen issues based on this service dataset:\n"

/-- Line 117: `data.head(50).to_string(index=False)` — header line of
column names, then one line per row, cells stringified. -/
def dfToString (df : DataFrame) : String :=
  String.intercalate "\n"
    (String.intercalate " " df.cols :: df.rows.map (fun r => String.intercalate " " (r.map cellStr)))

/-- Lines 117-118: the full prompt sent to the model. -/
def buildPrompt (df : DataFrame) : String :=
  promptTemplate ++ dfToString (headRows 50 df)

def geminiModelName : String := "gemini-2.5-flash"

def aiFailMsg (e : String) : String :=
  "Gemini summarization failed: " ++ e

/-- Block 6 (lines 113-129): subheader, and when the button is clicked a
try/except around prompt building and the Gemini call: success text on
`.ok`, an error message on any exception; nothing escapes. -/
def aiBlock (env : Env) (df : DataFrame) : List ExtCall × List UIEvent :=
  if env.buttonClicked then
    let prompt := buildPrompt df
    match env.genaiResp with
    | .ok txt =>
        ([.genaiGenerate geminiModelName prompt],
         [.subheader "🤖 Gemini AI Summary of Citizen Feedback",
          .success "✅ Gemini AI Summary Generated", .writeText txt])
    | .error e =>
        ([.genaiGenerate geminiModelName prompt],
         [.subheader "🤖 Gemini AI Summary of Citizen Feedback", .error (aiFailMsg e)])
  else
    ([], [.subheader "🤖 Gemini AI Summary of Citizen Feedback"])

def readyMsg : String := "✅ Dashboard ready and running successfully!"

/-- The observable outcome of one run of the script. -/
structure RunResult where
  calls : List ExtCall
  events : List UIEvent
  /-- `true` when the run ended at `st.stop()`. -/
  halted : Bool
  /-- The shared frame as it stands at the end of the run. -/
  finalData : Option DataFrame
deriving Repr

/-- The whole script, top to bottom: setup, two-tier load (halting when
both tiers fail), the five display blocks, the AI block, and the final
ready message. -/
def runScript (env : Env) : RunResult :=
  let pre := setupEvents env
  match loadData env with
  | (calls, evs, none) =>
      { calls := calls, events := pre ++ evs, halted := true, finalData := none }
  | (calls, evs, some df) =>
      let bd := runBlocks df
      let ai := aiBlock env bd.2
      { calls := calls ++ ai.1,
        events := pre ++ evs ++ bd.1 ++ ai.2 ++ [.info readyMsg],
        halted := false,
        finalData := some bd.2 }

/-! ## Derived predicates and sample data used in the theorems -/

/-- The classification of line 87, read off one original `resolved`
cell: stringify, strip, lowercase, then test membership in
`["no", "false", "0"]`. -/
def isUnresolved (c : Cell) : Bool :=
  cellIsin (normalizeCell c) ["no", "false", "0"]

/-- The classification of line 100, read off one original
`priority_score` cell: stringify, lowercase, then test for the
substring `"high"`. -/
def isHigh (c : Cell) : Bool :=
  strContains (pyLower (cellStr c)) "high"

/-- Events only the display blocks (sections 1-5) emit: headers,
subheaders, tables, charts, markdown. -/
def isDisplayBlockEvent : UIEvent → Bool
  | .header _ => true
  | .subheader _ => true
  | .showDataframe _ => true
  | .pieChart _ => true
  | .barChart _ => true
  | .markdown _ => true
  | .showTable _ => true
  | _ => false

def isBQCall : ExtCall → Bool
  | .bigqueryQuery _ => true
  | _ => false

def isCsvCall : ExtCall → Bool
  | .csvRead _ => true
  | _ => false

/-- A small frame with a `priority_score` column but no `severity`
column. -/
def sampleNoSeverity : DataFrame :=
  { cols := ["priority_score"], rows := [[.str "High"]] }

/-- A one-row frame whose only `priority_score` value is missing. -/
def samplePSMissing : DataFrame :=
  { cols := ["priority_score"], rows := [[.missing]] }

/-- A small full frame exercising every block. -/
def sampleFull : DataFrame :=
  { cols := ["priority_score", "resolved", "department", "severity"],
    rows := [[.str "High", .str " NO ", .str "Water", .str "Critical"],
             [.num 3, .str "yes", .str "Roads", .missing],
             [.str "Highest", .str "0", .str "Water", .str "Low"]] }

/-- A run where BigQuery succeeds and the Gemini call fails. -/
def envRemoteOkAiFail : Env :=
  { table := .ok sampleFull, csvFile := none, genaiResp := .error "quota",
    buttonClicked := true, genaiKeyPresent := true, credsOk := true }

/-- A run where both data tiers fail. -/
def envBothFail : Env :=
  { table := .error "no credentials", csvFile := none, genaiResp := .error "x",
    buttonClicked := false, genaiKeyPresent := false, credsOk := false }

/-! ## Helper lemmas -/

theorem getD_set_self {α : Type} {l : List α} {i : Nat} (h : i < l.length) (x d : α) :
    (l.set i x).getD i d = x := by
  induction l generalizing i with
  | nil => simp at h
  | cons a as ih =>
    cases i with
    | zero => rfl
    | succ n =>
      simp only [List.set_cons_succ, List.getD_cons_succ]
      exact ih (by simpa using h)

theorem getD_set_ne {α : Type} {l : List α} {i j : Nat} (h : j ≠ i) (x d : α) :
    (l.set i x).getD j d = l.getD j d := by
  induction l generalizing i j with
  | nil => rfl
  | cons a as ih =>
    cases i with
    | zero =>
      cases j with
      | zero => exact absurd rfl h
      | succ m => rfl
    | succ n =>
      cases j with
      | zero => rfl
      | succ m =>
        simp only [List.set_cons_succ, List.getD_cons_succ]
        exact ih (fun hc => h (by rw [hc]))

theorem colIdx_lt {cols : List String} {c : String} {i : Nat}
    (h : colIdx cols c = some i) : i < cols.length := by
  induction cols generalizing i with
  | nil => simp [colIdx] at h
  | cons a as ih =>
    simp only [colIdx] at h
    split at h
    · cases h; simp
    · rcases Option.map_eq_some'.mp h with ⟨k, hk, hki⟩
      subst hki
      simpa using ih hk

theorem colIdx_getD {cols : List String} {c : String} {i : Nat}
    (h : colIdx cols c = some i) : cols.getD i "" = c := by
  induction cols generalizing i with
  | nil => simp [colIdx] at h
  | cons a as ih =>
    simp only [colIdx] at h
    split at h
    · cases h
      next heq => simpa using heq
    · rcases Option.map_eq_some'.mp h with ⟨k, hk, hki⟩
      subst hki
      simpa using ih hk

theorem colIdx_injOn {cols : List String} {c c' : String} {i j : Nat}
    (hc : colIdx cols c = some i) (hc' : colIdx cols c' = some j)
    (hne : c ≠ c') : i ≠ j := by
  intro hij
  apply hne
  rw [← colIdx_getD hc, ← colIdx_getD hc', hij]

theorem cols_setCol (df : DataFrame) (c : String) (f : Cell → Cell) :
    (setCol df c f).cols = df.cols := by
  unfold setCol
  split <;> rfl

theorem hasCol_setCol (df : DataFrame) (c c' : String) (f : Cell → Cell) :
    hasCol (setCol df c f) c' = hasCol df c' := by
  unfold hasCol
  rw [cols_setCol]

theorem wf_setCol {df : DataFrame} (c : String) (f : Cell → Cell) (hw : Wf df) :
    Wf (setCol df c f) := by
  unfold setCol
  split
  · intro r hr
    simp only [List.mem_map] at hr
    rcases hr with ⟨r0, hr0, hset⟩
    subst hset
    simpa [setColRow] using hw r0 hr0
  · exact hw

theorem rows_setCol_some {df : DataFrame} {c : String} {i : Nat} (f : Cell → Cell)
    (h : colIdx df.cols c = some i) :
    (setCol df c f).rows = df.rows.map (setColRow i f) := by
  unfold setCol
  rw [h]

theorem getCol_setCol_ne {df : DataFrame} {c c' : String} (f : Cell → Cell)
    (hne : c' ≠ c) : getCol (setCol df c f) c' = getCol df c' := by
  unfold getCol
  rw [cols_setCol]
  match hc : colIdx df.cols c with
  | none =>
    unfold setCol
    rw [hc]
  | some i =>
    match hc' : colIdx df.cols c' with
    | none => rfl
    | some j =>
      have hij : j ≠ i := colIdx_injOn hc' hc hne
      rw [rows_setCol_some f hc]
      simp only [Option.map_some', Option.some.injEq, List.map_map]
      apply List.map_congr_left
      intro r _
      simp only [Function.comp_apply, setColRow]
      exact getD_set_ne hij _ _

theorem getCol_setCol_self {df : DataFrame} {c : String} {i : Nat} (f : Cell → Cell)
    (hw : Wf df) (h : colIdx df.cols c = some i) :
    getCol (setCol df c f) c = some ((getColD df c).map f) := by
  unfold getCol getColD
  rw [cols_setCol, h, rows_setCol_some f h]
  simp only [getCol, h, Option.map_some', Option.getD_some, Option.some.injEq, List.map_map]
  apply List.map_congr_left
  intro r hr
  simp only [Function.comp_apply, setColRow]
  exact getD_set_self (by rw [hw r hr]; exact colIdx_lt h) _ _

theorem rowCellD_of_colIdx {df : DataFrame} {c : String} {i : Nat}
    (h : colIdx df.cols c = some i) (r : List Cell) :
    rowCellD df c r = r.getD i Cell.missing := by
  unfold rowCellD
  rw [h]

theorem severityBlock_data (d : DataFrame) : (severityBlock d).2 = d := by
  unfold severityBlock
  split <;> rfl

/-! ## Claim theorems -/

/-- C5: with the summary button clicked, the text sent to the
text-generation API is exactly the fixed template followed by a
rendering of the first 50 rows, and that view never exceeds 50 rows. -/
theorem c5_prompt_is_truncated_view (env : Env) (df : DataFrame)
    (hb : env.buttonClicked = true) :
    (aiBlock env df).1
      = [.genaiGenerate geminiModelName (promptTemplate ++ dfToString (headRows 50 df))]
    ∧ (headRows 50 df).rows = df.rows.take 50
    ∧ (headRows 50 df).rows.length ≤ 50 := by
  refine ⟨?_, rfl, ?_⟩
  · cases hr : env.genaiResp <;> simp [aiBlock, hb, buildPrompt, hr]
  · show (df.rows.take 50).length ≤ 50
    rw [List.length_take]
    exact min_le_left _ _

theorem c5_witness :
    envRemoteOkAiFail.buttonClicked = true
    ∧ (aiBlock envRemoteOkAiFail sampleFull).1
      = [.genaiGenerate geminiModelName
          (promptTemplate ++ dfToString (headRows 50 sampleFull))] :=
  ⟨rfl, (c5_prompt_is_truncated_view envRemoteOkAiFail sampleFull rfl).1⟩

/-- C6: the warehouse query is the fixed SQL statement (independent of
any input), and a remotely loaded record set has at most 1000 rows. -/
theorem c6_fixed_query_limit (env : Env) (t : DataFrame) (h : env.table = .ok t) :
    query = "SELECT * FROM `second-sandbox-477217-h7.governance_data.predicted_priorities` LIMIT 1000"
    ∧ (loadData env).2.2 = some (runQuery t)
    ∧ (runQuery t).rows.length ≤ 1000 := by
  refine ⟨by decide, by simp [loadData, h], ?_⟩
  show (t.rows.take 1000).length ≤ 1000
  rw [List.length_take]
  exact min_le_left _ _

theorem c6_witness :
    (loadData envRemoteOkAiFail).2.2 = some (runQuery sampleFull)
    ∧ (runQuery sampleFull).rows.length ≤ 1000 :=
  ⟨(c6_fixed_query_limit envRemoteOkAiFail sampleFull rfl).2.1,
   (c6_fixed_query_limit envRemoteOkAiFail sampleFull rfl).2.2⟩

/-- C7: in every run the BigQuery query is issued exactly once and the
CSV read happens at most once; no tier is ever attempted twice. -/
theorem c7_no_retries (env : Env) :
    (runScript env).calls.countP isBQCall = 1
    ∧ (runScript env).calls.countP isCsvCall ≤ 1 := by
  obtain ⟨tb, csv, resp, btn, key, creds⟩ := env
  cases tb <;> cases csv <;> cases resp <;> cases btn <;>
    simp [runScript, loadData, aiBlock, isBQCall, isCsvCall, List.countP_cons]

/-- C2 counterexample: on a frame without a `severity` column the
severity block renders nothing at all — no informational placeholder. -/
theorem c2_counterexample :
    hasCol sampleNoSeverity "severity" = false
    ∧ (severityBlock sampleNoSeverity).1 = [] := by
  decide

/-- C3 counterexample: the key-insights block rewrites the shared frame
(`priority_score` cast to strings), and running the priority-breakdown
block after it instead of before yields a different pie chart on a frame
with a missing `priority_score` value. -/
theorem c3_counterexample :
    (insightsBlock samplePSMissing).2 ≠ samplePSMissing
    ∧ (priorityBlock ((insightsBlock samplePSMissing).2)).1
        ≠ (priorityBlock samplePSMissing).1 := by
  decide

/-- C3 amended: the blocks are not all order-insensitive.  The summary,
priority-breakdown and severity blocks leave the shared frame unchanged,
but the department block replaces `resolved` by its normalized string
form and the key-insights block casts `priority_score` to strings, so
blocks (and the AI summary) running after them observe rewritten data. -/
theorem c3_amended_block_effects (df : DataFrame) :
    (summaryBlock df).2 = df
    ∧ (priorityBlock df).2 = df
    ∧ (severityBlock df).2 = df
    ∧ (departmentBlock df).2
        = (if hasCol df "resolved" && hasCol df "department" then normalizedFrame df else df)
    ∧ (insightsBlock df).2 = (if hasCol df "priority_score" then castFrame df else df)
    ∧ (runBlocks df).2 = (insightsBlock ((departmentBlock df).2)).2 := by
  refine ⟨rfl, rfl, severityBlock_data df, ?_, ?_, ?_⟩
  · cases h : hasCol df "resolved" && hasCol df "department" <;> simp [departmentBlock, h]
  · cases h : hasCol df "priority_score" <;> simp [insightsBlock, h]
  · simp [runBlocks, summaryBlock, priorityBlock, severityBlock_data]

/-- C1: the remote query is always tried first; on any remote exception
the CSV read follows; when that too fails the run halts with a visible
error, loads nothing, and renders no display-block event. -/
theorem c1_two_tier_fallback (env : Env) :
    (runScript env).calls.head? = some (.bigqueryQuery query)
    ∧ (∀ t, env.table = .ok t →
        (runScript env).halted = false ∧ ExtCall.csvRead csvPath ∉ (runScript env).calls)
    ∧ (∀ e, env.table = .error e →
        (runScript env).calls.take 2 = [.bigqueryQuery query, .csvRead csvPath])
    ∧ (∀ e, env.table = .error e → env.csvFile = none →
        (runScript env).halted = true
        ∧ UIEvent.error noDataMsg ∈ (runScript env).events
        ∧ (runScript env).finalData = none
        ∧ (runScript env).events.all (fun ev => !isDisplayBlockEvent ev) = true)
    ∧ ((runScript env).halted = false → (runScript env).finalData.isSome = true) := by
  obtain ⟨tb, csv, resp, btn, key, creds⟩ := env
  cases tb <;> cases csv <;> cases resp <;> cases btn <;> cases key <;> cases creds <;>
    simp [runScript, loadData, aiBlock, setupEvents, isDisplayBlockEvent]

theorem c1_witness :
    (runScript envBothFail).halted = true
    ∧ UIEvent.error noDataMsg ∈ (runScript envBothFail).events
    ∧ (runScript envBothFail).finalData = none :=
  ⟨((c1_two_tier_fallback envBothFail).2.2.2.1 "no credentials" rfl rfl).1,
   ((c1_two_tier_fallback envBothFail).2.2.2.1 "no credentials" rfl rfl).2.1,
   ((c1_two_tier_fallback envBothFail).2.2.2.1 "no credentials" rfl rfl).2.2.1⟩

/-- C2 amended: for `priority_score` (priority breakdown) and for
`resolved`/`department` (department backlog) the block renders its
visualization when the columns are present — the department block shows
the bar chart only when the unresolved count series is nonempty and an
informational message otherwise — and an informational placeholder when
they are absent.  The severity block renders its bar chart when
`severity` is present but renders nothing at all (no placeholder) when
it is absent. -/
theorem c2_amended_column_gating (df : DataFrame) :
    (hasCol df "priority_score" = true →
      UIEvent.pieChart (valueCounts (getColD df "priority_score")) ∈ (priorityBlock df).1)
    ∧ (hasCol df "priority_score" = false →
        UIEvent.info priorityAbsentMsg ∈ (priorityBlock df).1
        ∧ ∀ cts, UIEvent.pieChart cts ∉ (priorityBlock df).1)
    ∧ (hasCol df "resolved" = true → hasCol df "department" = true →
        ((valueCounts (getColD (unresolvedFrame df) "department")).isEmpty = false →
          UIEvent.barChart (valueCounts (getColD (unresolvedFrame df) "department"))
            ∈ (departmentBlock df).1)
        ∧ ((valueCounts (getColD (unresolvedFrame df) "department")).isEmpty = true →
          UIEvent.info noUnresolvedMsg ∈ (departmentBlock df).1))
    ∧ ((hasCol df "resolved" && hasCol df "department") = false →
        UIEvent.info deptAbsentMsg ∈ (departmentBlock df).1)
    ∧ (hasCol df "severity" = true →
        UIEvent.barChart (valueCounts (getColD df "severity")) ∈ (severityBlock df).1)
    ∧ (hasCol df "severity" = false → (severityBlock df).1 = []) := by
  refine ⟨?_, ?_, ?_, ?_, ?_, ?_⟩
  · intro h; simp [priorityBlock, h]
  · intro h; simp [priorityBlock, h]
  · intro h1 h2
    constructor <;> intro hu <;> simp [departmentBlock, h1, h2, hu]
  · intro h; simp [departmentBlock, h]
  · intro h; simp [severityBlock, h]
  · intro h; simp [severityBlock, h]

theorem c2_witness :
    UIEvent.pieChart (valueCounts (getColD sampleFull "priority_score"))
      ∈ (priorityBlock sampleFull).1
    ∧ (severityBlock sampleNoSeverity).1 = [] :=
  ⟨(c2_amended_column_gating sampleFull).1 (by decide),
   (c2_amended_column_gating sampleNoSeverity).2.2.2.2.2 (by decide)⟩

/-- C4: when the Gemini call raises, the handler shows the error message
and the exception does not escape — the rest of the page (the final
ready message) still renders. -/
theorem c4_ai_catch_all (env : Env) (e : String) (hb : env.buttonClicked = true)
    (he : env.genaiResp = .error e) (hl : (runScript env).halted = false) :
    UIEvent.error (aiFailMsg e) ∈ (runScript env).events
    ∧ UIEvent.info readyMsg ∈ (runScript env).events := by
  obtain ⟨tb, csv, resp, btn, key, creds⟩ := env
  cases tb <;> cases csv <;> cases resp <;> cases btn <;>
    simp_all [runScript, loadData, aiBlock]

theorem c4_witness :
    UIEvent.error (aiFailMsg "quota") ∈ (runScript envRemoteOkAiFail).events
    ∧ UIEvent.info readyMsg ∈ (runScript envRemoteOkAiFail).events :=
  c4_ai_catch_all envRemoteOkAiFail "quota" rfl rfl (by decide)

theorem beq_cell_str (s v : String) : (Cell.str s == Cell.str v) = (s == v) := by
  rw [Bool.eq_iff_iff]
  simp

theorem cellStr_strCast (c : Cell) : cellStr (strCast c) = cellStr c := rfl

/-- C8: when `resolved`, `department` and `priority_score` are present,
the display blocks leave the shared frame with `resolved` replaced by
its stripped lowercase string form and `priority_score` cast to strings,
every other column unchanged; the AI call then sends a prompt built from
exactly this rewritten frame. -/
theorem c8_mutations_reach_ai (df : DataFrame) (hw : Wf df)
    (h1 : hasCol df "resolved" = true) (h2 : hasCol df "department" = true)
    (h3 : hasCol df "priority_score" = true) :
    (runBlocks df).2 = castFrame (normalizedFrame df)
    ∧ (runBlocks df).2.cols = df.cols
    ∧ getCol (runBlocks df).2 "resolved" = some ((getColD df "resolved").map normalizeCell)
    ∧ getCol (runBlocks df).2 "priority_score" = some ((getColD df "priority_score").map strCast)
    ∧ (∀ c, c ≠ "resolved" → c ≠ "priority_score" → getCol (runBlocks df).2 c = getCol df c)
    ∧ (∀ env : Env, env.buttonClicked = true →
        (aiBlock env (runBlocks df).2).1.head?
          = some (.genaiGenerate geminiModelName (buildPrompt (runBlocks df).2))) := by
  obtain ⟨i, hi⟩ := Option.isSome_iff_exists.mp h1
  obtain ⟨j, hj⟩ := Option.isSome_iff_exists.mp h3
  have hd : (departmentBlock df).2 = normalizedFrame df := by
    simp [departmentBlock, h1, h2]
  have hps : hasCol (normalizedFrame df) "priority_score" = true := by
    rw [normalizedFrame, hasCol_setCol]; exact h3
  have hins : (insightsBlock (normalizedFrame df)).2 = castFrame (normalizedFrame df) := by
    simp [insightsBlock, hps]
  have hrun : (runBlocks df).2 = castFrame (normalizedFrame df) := by
    simp [runBlocks, summaryBlock, priorityBlock, severityBlock_data, hd, hins]
  have hjn : colIdx (normalizedFrame df).cols "priority_score" = some j := by
    rw [normalizedFrame, cols_setCol]; exact hj
  refine ⟨hrun, ?_, ?_, ?_, ?_, ?_⟩
  · rw [hrun, castFrame, cols_setCol, normalizedFrame, cols_setCol]
  · rw [hrun, castFrame, getCol_setCol_ne strCast (by decide), normalizedFrame,
      getCol_setCol_self normalizeCell hw hi]
  · have hwn : Wf (normalizedFrame df) := by
      unfold normalizedFrame
      exact wf_setCol "resolved" normalizeCell hw
    rw [hrun, castFrame, getCol_setCol_self strCast hwn hjn]
    have hcol : getCol (normalizedFrame df) "priority_score" = getCol df "priority_score" := by
      rw [normalizedFrame]; exact getCol_setCol_ne normalizeCell (by decide)
    simp only [getColD, hcol]
  · intro c hc1 hc2
    rw [hrun, castFrame, getCol_setCol_ne strCast hc2, normalizedFrame,
      getCol_setCol_ne normalizeCell hc1]
  · intro env hb
    cases hr : env.genaiResp <;> simp [aiBlock, hb, hr]

theorem c8_witness :
    getCol (runBlocks sampleFull).2 "resolved"
      = some ((getColD sampleFull "resolved").map normalizeCell)
    ∧ getCol (runBlocks sampleFull).2 "priority_score"
      = some ((getColD sampleFull "priority_score").map strCast)
    ∧ getCol (runBlocks sampleFull).2 "department" = getCol sampleFull "department" :=
  ⟨(c8_mutations_reach_ai sampleFull (by unfold Wf; decide) (by decide) (by decide) (by decide)).2.2.1,
   (c8_mutations_reach_ai sampleFull (by unfold Wf; decide) (by decide) (by decide) (by decide)).2.2.2.1,
   (c8_mutations_reach_ai sampleFull (by unfold Wf; decide) (by decide) (by decide) (by decide)).2.2.2.2.1
     "department" (by decide) (by decide)⟩

/-- C9: a row counts as unresolved exactly when its `resolved` value,
stringified, stripped and lowercased, is one of `"no"`, `"false"`,
`"0"`; missing values (stringifying to `"nan"`) and empty strings count
as resolved.  The unresolved selection of the department block is the
filter of the original rows by this classification (with the normalized
`resolved` cell written back). -/
theorem c9_unresolved_classification (df : DataFrame) (hw : Wf df) {i : Nat}
    (hi : colIdx df.cols "resolved" = some i) :
    (unresolvedFrame df).rows
      = (df.rows.filter (fun r => isUnresolved (r.getD i Cell.missing))).map
          (setColRow i normalizeCell)
    ∧ (∀ c, isUnresolved c
        = (pyLower (pyStrip (cellStr c)) == "no" || pyLower (pyStrip (cellStr c)) == "false"
            || pyLower (pyStrip (cellStr c)) == "0"))
    ∧ isUnresolved Cell.missing = false
    ∧ isUnresolved (Cell.str "") = false
    ∧ isUnresolved (Cell.str " NO ") = true
    ∧ isUnresolved (Cell.str "False") = true := by
  refine ⟨?_, ?_, by decide, by decide, by decide, by decide⟩
  · have hcols : colIdx (normalizedFrame df).cols "resolved" = some i := by
      rw [normalizedFrame, cols_setCol]; exact hi
    have hrows : (normalizedFrame df).rows = df.rows.map (setColRow i normalizeCell) :=
      rows_setCol_some normalizeCell hi
    show ((normalizedFrame df).rows.filter _) = _
    rw [hrows, List.filter_map]
    congr 1
    apply List.filter_congr
    intro r hr
    have hlen : i < r.length := by rw [hw r hr]; exact colIdx_lt hi
    simp only [Function.comp_apply, rowCellD_of_colIdx hcols, setColRow,
      getD_set_self hlen]
    rfl
  · intro c
    simp [isUnresolved, cellIsin, normalizeCell, beq_cell_str, Bool.or_assoc]

theorem c9_witness :
    (unresolvedFrame sampleFull).rows
      = (sampleFull.rows.filter (fun r => isUnresolved (r.getD 1 Cell.missing))).map
          (setColRow 1 normalizeCell) :=
  (c9_unresolved_classification sampleFull (by unfold Wf; decide) (by decide)).1

/-- C10: the high-priority count displayed by the key-insights block is
the number of rows whose `priority_score`, stringified and lowercased,
contains the substring `"high"`: `"Highest"` and `"very high"` count,
numeric scores and missing values do not. -/
theorem c10_high_priority_count (df : DataFrame) (hw : Wf df) {i : Nat}
    (hi : colIdx df.cols "priority_score" = some i) :
    (highFrame df).rows
      = (df.rows.filter (fun r => isHigh (r.getD i Cell.missing))).map (setColRow i strCast)
    ∧ UIEvent.markdown
        (highCountMsg ((df.rows.filter (fun r => isHigh (r.getD i Cell.missing))).length))
        ∈ (insightsBlock df).1
    ∧ isHigh (.str "Highest") = true
    ∧ isHigh (.str "very high") = true
    ∧ isHigh (.num 7) = false
    ∧ isHigh Cell.missing = false := by
  have hcols : colIdx (castFrame df).cols "priority_score" = some i := by
    rw [castFrame, cols_setCol]; exact hi
  have hrows : (castFrame df).rows = df.rows.map (setColRow i strCast) :=
    rows_setCol_some strCast hi
  have hmain : (highFrame df).rows
      = (df.rows.filter (fun r => isHigh (r.getD i Cell.missing))).map (setColRow i strCast) := by
    show ((castFrame df).rows.filter _) = _
    rw [hrows, List.filter_map]
    congr 1
    apply List.filter_congr
    intro r hr
    have hlen : i < r.length := by rw [hw r hr]; exact colIdx_lt hi
    simp only [Function.comp_apply, rowCellD_of_colIdx hcols, setColRow,
      getD_set_self hlen, isHigh, cellStr_strCast]
  refine ⟨hmain, ?_, by decide, by decide, by decide, by decide⟩
  have hhc : hasCol df "priority_score" = true := by
    rw [hasCol, hi]; rfl
  have hlen : (highFrame df).rows.length
      = (df.rows.filter (fun r => isHigh (r.getD i Cell.missing))).length := by
    rw [hmain, List.length_map]
  rw [← hlen]
  simp [insightsBlock, hhc]

theorem c10_witness :
    (highFrame sampleFull).rows
      = (sampleFull.rows.filter (fun r => isHigh (r.getD 0 Cell.missing))).map
          (setColRow 0 strCast)
    ∧ UIEvent.markdown
        (highCountMsg ((sampleFull.rows.filter (fun r => isHigh (r.getD 0 Cell.missing))).length))
        ∈ (insightsBlock sampleFull).1 :=
  ⟨(c10_high_priority_count sampleFull (by unfold Wf; decide) (by decide)).1,
   (c10_high_priority_count sampleFull (by unfold Wf; decide) (by decide)).2.1⟩

end Dashboard
